import Mathlib

/-!
Shallow embedding of the tsukimi-speaker-rust edge-node runtime, covering the
parts of the program referenced by the claims: the connect system
(src/connect_system/connect_main.rs), the BLE scanner dedup step
(src/bluetooth_system/bluetooth_main.rs) and the audio engine's selection,
drift-correction and track-switch logic (src/audio_system/audio_main.rs).

Machine integers are modelled as Nat/Int; u64 wrap-around and the u64 to i64
reinterpretation are explicit (`wrapSub64`, `asI64`, `wrapI64`).  f64
arithmetic on drift and rate is modelled exactly over the rationals.
Instants are modelled as nanosecond counts (Nat).  HashMaps are modelled as
functions into Option.
-/

namespace Tsukimi

/-! Connect system: src/connect_system/connect_main.rs -/

/-- Base location type from a place_type (connect_main.rs lines 62-72). -/
def get_base_location_type_from_place_type (place_type : String) : String :=
  if place_type = "projection_mapping" then "main"
  else if place_type = "buddhas_bowl" then "hotoke"
  else if place_type = "jeweled_branch" then "eda"
  else if place_type = "fire_rat_robe" then "nezumi"
  else if place_type = "dragons_jewel" then "ryu"
  else if place_type = "swallows_cowry" then "kai"
  else "main"

/-- Sound file name from a place_type and the current points
(connect_main.rs lines 75-80): points equal to 0 are replaced by 1,
every other value (negative ones included) is rendered verbatim. -/
def get_sound_file_from_place_type_and_points (place_type : String) (points : Int) : String :=
  let base_type := get_base_location_type_from_place_type place_type
  let effective_points : Int := if points = 0 then 1 else points
  "tsukimi-" ++ base_type ++ "_" ++ toString effective_points ++ ".mp3"

/-- SE file for a place_type (connect_main.rs lines 90-96). -/
def get_se_file_from_place_type (place_type : String) : Option String :=
  if place_type = "fire_rat_robe" then some "se-nezumi.mp3"
  else if place_type = "buddhas_bowl" then some "se-hotoke.mp3"
  else none

/-- Whether a place_type is interactive (connect_main.rs lines 99-101). -/
def is_interactive_place_type (place_type : String) : Bool :=
  (place_type == "fire_rat_robe") || (place_type == "buddhas_bowl")

/-- Statement of the amended C7 asset-name formula, written from the spec's
base table (spec §6.4) with effective points `if points = 0 then 1 else
points` in place of `max(points, 1)`. -/
def specAssetNameAmended (place_type : String) (points : Int) : String :=
  let base :=
    if place_type = "projection_mapping" then "main"
    else if place_type = "buddhas_bowl" then "hotoke"
    else if place_type = "jeweled_branch" then "eda"
    else if place_type = "fire_rat_robe" then "nezumi"
    else if place_type = "dragons_jewel" then "ryu"
    else if place_type = "swallows_cowry" then "kai"
    else "main"
  "tsukimi-" ++ base ++ "_" ++ toString (if points = 0 then (1 : Int) else points) ++ ".mp3"

/-- One entry of a LocationUpdate downlink event: proto Location
with an address and a place_type. -/
structure Location where
  address : String
  place_type : String
  deriving DecidableEq

/-- One entry of a MoonlightUpdate downlink event. -/
structure Moonlight where
  device : String
  address : String
  enabled : Bool
  deriving DecidableEq

/-- Proto SoundSetting payload (fields as used by the audio engine). -/
structure SoundSetting where
  id : String
  max_volume_rssi : ℚ
  min_volume_rssi : ℚ
  max_volume : ℚ
  min_volume : ℚ
  is_muted : Bool
  deriving DecidableEq

/-- System-enabled broadcast message (connect_main.rs lines 17-21). -/
structure SystemEnabledState where
  enabled : Bool
  target_device_id : String
  deriving DecidableEq

/-- DeviceService downlink events: the oneof of StreamDeviceInfoResponse. -/
inductive Event where
  | timeUpdate (elapsed_nanoseconds : Nat)
  | locationUpdate (locations : List Location)
  | pointUpdate (user_id : String) (points : Int)
  | soundSettingUpdate (settings : Option SoundSetting)
  | moonlightUpdate (moonlights : List Moonlight)

/-- Shared state touched by the DeviceService downlink handler. -/
structure ConnState where
  soundMap : String → Option String
  locTypes : String → Option String
  points : Int
  pointsInitialized : Bool
  currentLocationType : String
  myAddress : Option String

/-- Messages emitted on the outgoing channels by one downlink event. -/
structure ConnEffects where
  timeSyncSends : List Nat := []
  seSends : List String := []
  soundSettingSends : List SoundSetting := []
  systemEnabledSends : List SystemEnabledState := []

/-- Fold inserting one map entry per listed location (the insert half of the
differential rewrite, connect_main.rs lines 326-345). -/
def insertEntries {β : Type} (g : Location → β) (locs : List Location)
    (m : String → Option β) : String → Option β :=
  locs.foldl (fun acc loc => fun x => if x = loc.address then some (g loc) else acc x) m

/-- Event handling of run_device_service_client (connect_main.rs lines
310-483), one downlink StreamDeviceInfoResponse at a time.  The TimeUpdate
arm only logs (lines 315-317): it sends nothing anywhere. -/
def handle_device_service_event (s : ConnState) (e : Event) : ConnState × ConnEffects :=
  match e with
  | .timeUpdate _ => (s, {})
  | .locationUpdate locs =>
      let newAddresses := locs.map Location.address
      let sm1 := insertEntries
        (fun loc => get_sound_file_from_place_type_and_points loc.place_type s.points)
        locs s.soundMap
      let lt1 := insertEntries (fun loc => loc.place_type) locs s.locTypes
      let sm2 := fun a => if a ∈ newAddresses then sm1 a else none
      let lt2 := fun a => if a ∈ newAddresses then lt1 a else none
      let clt :=
        match locs.head? with
        | some l => get_base_location_type_from_place_type l.place_type
        | none => s.currentLocationType
      ({ s with soundMap := sm2, locTypes := lt2, currentLocationType := clt }, {})
  | .pointUpdate user_id new_points =>
      if s.myAddress = some user_id then
        if s.points ≠ new_points then
          let sm2 := fun a =>
            match s.soundMap a with
            | none => none
            | some old =>
                match s.locTypes a with
                | some pt => some (get_sound_file_from_place_type_and_points pt new_points)
                | none => some old
          let is_initialized := s.pointsInitialized
          let se := if is_initialized ∧ s.points < new_points then ["se-point.mp3"] else []
          ({ s with points := new_points, soundMap := sm2, pointsInitialized := true },
           { seSends := se })
        else (s, {})
      else (s, {})
  | .soundSettingUpdate os =>
      match os with
      | some settings => (s, { soundSettingSends := [settings] })
      | none => (s, {})
  | .moonlightUpdate moonlights =>
      match s.myAddress with
      | some device_id =>
          match moonlights.find? (fun m => (m.device == device_id) || (m.address == device_id)) with
          | some m => (s, { systemEnabledSends := [⟨m.enabled, device_id⟩] })
          | none => (s, {})
      | none => (s, {})

/-- Initial shared state of the process (main.rs lines 83-85 apart from the
placeholder sound_map entry, which the first LocationUpdate overwrites). -/
def initConnState : ConnState :=
  { soundMap := fun _ => none
    locTypes := fun _ => none
    points := 0
    pointsInitialized := false
    currentLocationType := ""
    myAddress := none }

/-- Forwarding step of run_time_service_client (connect_main.rs lines
506-513): every received elapsed_nanoseconds is sent into time_sync. -/
def run_time_service_forward (elapsed_nanoseconds : Nat) : List Nat :=
  [elapsed_nanoseconds]

/-! Interaction (proximity SE) detector: connect_main.rs lines 160-265 -/

/-- RSSI edge for the proximity interaction (connect_main.rs line 165). -/
def INTERACTION_RSSI_THRESHOLD : Int := -45

/-- Value of i16::MIN, the default previous RSSI for a never-seen address
(connect_main.rs line 190). -/
def I16_MIN : Int := -32768

/-- Cooldown of InteractionState, 10 s in nanoseconds (connect_main.rs line 45). -/
def INTERACTION_COOLDOWN_NS : Nat := 10000000000

/-- InteractionState.can_interact (connect_main.rs lines 49-58): false while
the place_type is inside its cooldown window; otherwise record now and allow. -/
def can_interact (lastInteraction : String → Option Nat) (now : Nat) (place_type : String) :
    Bool × (String → Option Nat) :=
  match lastInteraction place_type with
  | some last_time =>
      if now - last_time < INTERACTION_COOLDOWN_NS then (false, lastInteraction)
      else (true, fun p => if p = place_type then some now else lastInteraction p)
  | none => (true, fun p => if p = place_type then some now else lastInteraction p)

/-- Effects of one observation through the interaction detector. -/
structure InteractionOutcome where
  seSend : Option String := none
  httpSend : Option (String × String) := none
  deriving DecidableEq

/-- Crossing decision of the interaction detection task (connect_main.rs
lines 190-252): previous RSSI defaults to i16::MIN, a crossing of the
-45 dBm threshold on an interactive place_type outside its cooldown sends
the mapped SE and, when the own address is known, the HTTP increment
request (user_id, place_type). -/
def interaction_fire (lastRssiMap : String → Option Int) (locTypes : String → Option String)
    (lastInteraction : String → Option Nat) (myAddress : Option String) (now : Nat)
    (address : String) (rssi : Int) :
    InteractionOutcome × (String → Option Nat) :=
  if (lastRssiMap address).getD I16_MIN ≤ INTERACTION_RSSI_THRESHOLD ∧
      INTERACTION_RSSI_THRESHOLD < rssi then
    match locTypes address with
    | some place_type =>
        if is_interactive_place_type place_type = true then
          let ci := can_interact lastInteraction now place_type
          if ci.1 = true then
            ({ seSend := get_se_file_from_place_type place_type
               httpSend := myAddress.map (fun user_id => (user_id, place_type)) }, ci.2)
          else ({}, ci.2)
        else ({}, lastInteraction)
    | none => ({}, lastInteraction)
  else ({}, lastInteraction)

/-- One step of the interaction detection task (connect_main.rs lines
180-255): the crossing decision above, plus the unconditional update of the
per-address last-RSSI map (line 254). -/
def interactionStep (lastRssiMap : String → Option Int) (locTypes : String → Option String)
    (lastInteraction : String → Option Nat) (myAddress : Option String) (now : Nat)
    (address : String) (rssi : Int) :
    InteractionOutcome × (String → Option Int) × (String → Option Nat) :=
  ((interaction_fire lastRssiMap locTypes lastInteraction myAddress now address rssi).1,
   fun a => if a = address then some rssi else lastRssiMap a,
   (interaction_fire lastRssiMap locTypes lastInteraction myAddress now address rssi).2)

/-! BLE scanner: src/bluetooth_system/bluetooth_main.rs -/

/-- Per-address dedup cache entry (bluetooth_main.rs lines 20-23), with the
Instant modelled as nanoseconds. -/
structure DeviceCacheEntry where
  last_sent : Nat
  last_rssi : Int
  deriving DecidableEq

/-- Minimum inter-emission interval, 25 ms in nanoseconds
(bluetooth_main.rs line 275). -/
def SCAN_DEDUP_INTERVAL_NS : Nat := 25000000

/-- Decision core of on_event_receive (bluetooth_main.rs lines 252-307):
addresses missing from sound_map are dropped before any property read; a
cached address is sent iff 25 ms elapsed since last_sent or the RSSI moved
by at least 1 dBm (updating the cache on send); a new address always sends. -/
def on_event_receive (soundMapKeys : String → Bool)
    (cache : String → Option DeviceCacheEntry) (now : Nat) (address : String) (rssi : Int) :
    Bool × (String → Option DeviceCacheEntry) :=
  if soundMapKeys address = false then (false, cache)
  else
    match cache address with
    | some cached =>
        let elapsed := now - cached.last_sent
        let rssi_diff := (rssi - cached.last_rssi).natAbs
        if SCAN_DEDUP_INTERVAL_NS ≤ elapsed ∨ 1 ≤ rssi_diff then
          (true, fun a => if a = address then some { last_sent := now, last_rssi := rssi } else cache a)
        else (false, cache)
    | none =>
        (true, fun a => if a = address then some { last_sent := now, last_rssi := rssi } else cache a)

/-! Audio engine: src/audio_system/audio_main.rs -/

/-- DeviceInfo (main.rs lines 16-21), last_seen as nanoseconds. -/
structure DeviceInfo where
  address : String
  rssi : Int
  last_seen : Nat
  deriving DecidableEq

/-- Candidate filter threshold (audio_main.rs line 596). -/
def RSSI_THRESHOLD : Int := -70

/-- Points assigned to a candidate by the ranking comparator
(audio_main.rs lines 608-609). -/
def candidate_points (my_addr : Option String) (points : Int) (d : DeviceInfo) : Int :=
  match my_addr with
  | none => 0
  | some m => if d.address = m then points else 0

/-- Boolean form of the two-key descending comparator of audio_main.rs lines
607-611: a may precede b iff the comparator does not order a after b. -/
def rank_le (my_addr : Option String) (points : Int) (a b : DeviceInfo) : Bool :=
  let ap := candidate_points my_addr points a
  let bp := candidate_points my_addr points b
  decide (bp < ap) || (decide (ap = bp) && decide (b.rssi ≤ a.rssi))

/-- Stable insertion of an element into a list sorted by a boolean total
preorder. -/
def orderedInsert {α : Type} (le : α → α → Bool) (a : α) : List α → List α
  | [] => [a]
  | b :: l => if le a b then a :: b :: l else b :: orderedInsert le a l

/-- Stable sort by a boolean total preorder; for the total preorder rank_le
this produces the same list as Rust's stable sort_by of audio_main.rs
line 607 (stable sorts agree on their output). -/
def insertionSortBy {α : Type} (le : α → α → Bool) : List α → List α
  | [] => []
  | a :: l => orderedInsert le a (insertionSortBy le l)

/-- Best-device selection (audio_main.rs lines 598-614): filter to addresses
in sound_map with rssi above -70, stable-sort by the two-key comparator,
take the first. -/
def best_device (devices : List DeviceInfo) (soundMap : String → Option String)
    (my_addr : Option String) (points : Int) : Option DeviceInfo :=
  let candidates := devices.filter
    (fun d => (soundMap d.address).isSome && decide (RSSI_THRESHOLD < d.rssi))
  (insertionSortBy (rank_le my_addr points) candidates).head?

/-- Fallback test of audio_main.rs lines 616-637. -/
def all_below_threshold (devices : List DeviceInfo) (soundMap : String → Option String)
    (current_sound default_sound : String) : Bool :=
  match devices.find? (fun d => soundMap d.address == some current_sound) with
  | some device => decide (device.rssi ≤ RSSI_THRESHOLD)
  | none =>
      if current_sound = default_sound then false
      else
        let registered := devices.filter (fun d => (soundMap d.address).isSome)
        !registered.isEmpty && registered.all (fun d => decide (d.rssi ≤ RSSI_THRESHOLD))

/-- Desired-sound resolution (audio_main.rs lines 639-656). -/
def desired_sound (devices : List DeviceInfo) (soundMap : String → Option String)
    (my_addr : Option String) (points : Int) (current_sound default_sound : String) : String :=
  match best_device devices soundMap my_addr points with
  | some device => (soundMap device.address).getD current_sound
  | none =>
      if all_below_threshold devices soundMap current_sound default_sound then default_sound
      else current_sound

/-- Switch trigger condition (audio_main.rs line 692): a switch request is
sent exactly when the desired sound differs from current_sound and no switch
is in progress; no RSSI comparison takes part in it. -/
def switch_initiated (desired current_sound : String) (switching : Bool) : Bool :=
  (desired != current_sound) && !switching

/-! U64/i64 arithmetic helpers for the drift computation -/

/-- Wrapping u64 subtraction (release-mode semantics of the Rust
subtraction at audio_main.rs line 570). -/
def wrapSub64 (a b : Nat) : Nat :=
  (2 ^ 64 + a % 2 ^ 64 - b % 2 ^ 64) % 2 ^ 64

/-- Reinterpretation of a u64 bit pattern as i64 (the as-i64 cast). -/
def asI64 (x : Nat) : Int :=
  if x % 2 ^ 64 < 2 ^ 63 then (x % 2 ^ 64 : Nat) else (x % 2 ^ 64 : Nat) - 2 ^ 64

/-- Wrapping of an integer into the i64 range (release-mode i64 arithmetic). -/
def wrapI64 (x : Int) : Int :=
  (x + 2 ^ 63) % 2 ^ 64 - 2 ^ 63

/-- Rust f64 clamp over exact rationals. -/
def clampQ (x lo hi : ℚ) : ℚ := max lo (min hi x)

/-- Outcome of one drift-correction pass: whether seek_to_server_time was
invoked on the active pipeline (with which server time), the rate written to
the rate/pitch control (a no-op when the pitch element is absent), whether
the sync anchor (playback_start_time, initial_server_time_ns) was reset,
and the update of current_seek_position_ns. -/
structure DriftOutcome where
  seekServerTime : Option Nat := none
  newRate : Option ℚ := none
  anchorReset : Bool := false
  newSeekPos : Option Nat := none
  deriving DecidableEq

/-- Branch body of the drift correction (audio_main.rs lines 574-592) as a
function of the computed signed difference: seek and rate 1.0 when the
magnitude exceeds 3 s, else rate clamp(1 + diff_s / 2, 0.9, 1.1); the anchor
is reset in both branches. -/
def driftCorrect (diff : Int) (serverTimeNs : Nat) (cachedDurationNs : Option Nat) : DriftOutcome :=
  if 3000000000 < diff.natAbs then
    { seekServerTime := some serverTimeNs
      newRate := some 1
      anchorReset := true
      newSeekPos :=
        match cachedDurationNs with
        | some d => if 0 < d then some (serverTimeNs % d) else none
        | none => none }
  else
    { seekServerTime := none
      newRate := some (clampQ (1 + (diff : ℚ) / 1000000000 / 2) (9 / 10) (11 / 10))
      anchorReset := true
      newSeekPos := none }

/-- Drift-correction pass of the Playing state (audio_main.rs lines
565-593): gated on a nonzero anchor server time and on being outside the
switch guard; the difference is computed with u64 wrapping subtraction cast
to i64, minus the client elapsed nanoseconds as i64. -/
def driftStep (switching inGuardWindow : Bool)
    (initialServerTimeNs serverTimeNs clientElapsedNs : Nat)
    (cachedDurationNs : Option Nat) : DriftOutcome :=
  if initialServerTimeNs ≠ 0 ∧ (switching || inGuardWindow) = false then
    driftCorrect
      (wrapI64 (asI64 (wrapSub64 serverTimeNs initialServerTimeNs) - asI64 clientElapsedNs))
      serverTimeNs cachedDurationNs
  else {}

/-- Target of seek_to_server_time (audio_main.rs lines 145-170) when the
duration query succeeds with a positive value: server time modulo duration;
on a zero or unavailable duration the function gives up without seeking. -/
def seek_to_server_time_target (durationNs serverTimeNs : Nat) : Option Nat :=
  if 0 < durationNs then some (serverTimeNs % durationNs) else none

/-! Track-switch worker and completion: audio_main.rs lines 659-689, 717-801 -/

/-- Observable actions of the switch worker thread, in order. -/
inductive WorkerAction where
  | setVolume (v : ℚ)
  | setTempo (v : ℚ)
  | setStatePaused
  | waitPaused (reached : Bool)
  | seekFlushAccurate (pos : Nat)
  | setStatePlaying
  | sendToMain
  deriving DecidableEq, BEq

/-- Trace of the worker thread spawned for a track switch (audio_main.rs
lines 717-801): on build failure it only logs and returns (nothing sent);
otherwise it sets volume and tempo to 1.0, transitions to Paused, waits for
the state (the result of wait_for_state is discarded), seeks flush+accurate
to the requested position, sets the pipeline to Playing, waits for
buffering, and finally delivers the handle over the single-slot channel -
unless a bus error arrived during the buffering wait, in which case it
returns without delivering. -/
def switch_worker (buildOk : Bool) (pauseReached : Bool) (busErrorDuringBuffering : Bool)
    (seek_position_ns : Nat) : List WorkerAction :=
  if buildOk = false then []
  else
    [WorkerAction.setVolume 1, WorkerAction.setTempo 1, WorkerAction.setStatePaused,
      WorkerAction.waitPaused pauseReached, WorkerAction.seekFlushAccurate seek_position_ns,
      WorkerAction.setStatePlaying]
    ++ (if busErrorDuringBuffering then [] else [WorkerAction.sendToMain])

/-- What the main loop does when the worker's pipeline arrives on switch_rx
(audio_main.rs lines 659-689): stop the old active (Null), adopt the new
pipeline as active without issuing any state change on it, refresh the
duration cache, reset the sync anchor, clear switching. -/
structure SwitchCompletion where
  oldActiveSetNull : Bool
  standbyPromotedToPlayingByMain : Bool
  switchingCleared : Bool
  anchorReset : Bool
  deriving DecidableEq

/-- Completion step of audio_main.rs lines 659-689. -/
def main_on_switch_received : SwitchCompletion :=
  { oldActiveSetNull := true
    standbyPromotedToPlayingByMain := false
    switchingCleared := true
    anchorReset := true }

/-- Value of the switching flag after a switch attempt whose worker behaved
as the three booleans describe: set to true at request time (audio_main.rs
line 700) and cleared only when a pipeline is received on switch_rx
(line 686). -/
def switching_after_attempt (buildOk pauseReached busError : Bool) (pos : Nat) : Bool :=
  !((switch_worker buildOk pauseReached busError pos).contains WorkerAction.sendToMain)

end Tsukimi

namespace Tsukimi

/-! Theorems for claims C7 and C8 -/

theorem insertEntries_isSome {β : Type} (g : Location → β) (locs : List Location)
    (m : String → Option β) (a : String) :
    ((insertEntries g locs m a).isSome = true) ↔
      (a ∈ locs.map Location.address ∨ (m a).isSome = true) := by
  induction locs generalizing m with
  | nil => simp [insertEntries]
  | cons l ls ih =>
      have h2 := ih (fun x => if x = l.address then some (g l) else m x)
      simp only [insertEntries, List.foldl_cons] at h2 ⊢
      rw [h2]
      by_cases h : a = l.address
      · simp [h]
      · simp [h]

/-- C7 counterexample: at points = -1 the code renders the points verbatim,
not as max(points, 1) = 1 as the claim states. -/
theorem C7_counterexample :
    get_sound_file_from_place_type_and_points "projection_mapping" (-1) = "tsukimi-main_-1.mp3"
    ∧ get_sound_file_from_place_type_and_points "projection_mapping" (-1) ≠
        "tsukimi-main_" ++ toString (max (-1 : Int) 1) ++ ".mp3" := by
  constructor
  · rfl
  · decide

/-- C7 (amended): for every place_type and signed points value, the resolved
asset name is tsukimi-base_p.mp3 with base per the spec table and
p = 1 when points = 0, else points itself (negatives rendered verbatim). -/
theorem C7_asset_name (place_type : String) (points : Int) :
    get_sound_file_from_place_type_and_points place_type points =
      specAssetNameAmended place_type points := rfl

/-- C8: after a LocationUpdate is applied, SoundMap and LocationTypeCache
have exactly the same key set, namely the addresses listed in the update. -/
theorem C8_keyset (s : ConnState) (locs : List Location) (a : String) :
    ((((handle_device_service_event s (Event.locationUpdate locs)).1.soundMap a).isSome = true) ↔
        a ∈ locs.map Location.address)
    ∧ ((((handle_device_service_event s (Event.locationUpdate locs)).1.locTypes a).isSome = true) ↔
        a ∈ locs.map Location.address) := by
  have hsm : (handle_device_service_event s (Event.locationUpdate locs)).1.soundMap a =
      if a ∈ locs.map Location.address then
        insertEntries (fun loc => get_sound_file_from_place_type_and_points loc.place_type s.points)
          locs s.soundMap a
      else none := rfl
  have hlt : (handle_device_service_event s (Event.locationUpdate locs)).1.locTypes a =
      if a ∈ locs.map Location.address then
        insertEntries (fun loc => loc.place_type) locs s.locTypes a
      else none := rfl
  rw [hsm, hlt]
  by_cases hmem : a ∈ locs.map Location.address
  · rw [if_pos hmem, if_pos hmem]
    constructor
    · simp [insertEntries_isSome, hmem]
    · simp [insertEntries_isSome, hmem]
  · rw [if_neg hmem, if_neg hmem]
    simp [hmem]

/-- C2 counterexample: a TimeUpdate with elapsed_nanoseconds = 42 received on
the DeviceService downlink is only logged - nothing is sent into time_sync,
contrary to the claim. -/
theorem C2_counterexample :
    (handle_device_service_event initConnState (Event.timeUpdate 42)).2.timeSyncSends = [] ∧
      ¬ (42 ∈ (handle_device_service_event initConnState (Event.timeUpdate 42)).2.timeSyncSends) := by
  exact ⟨rfl, by decide⟩

/-- C2 (amended): the DeviceService downlink handler forwards nothing into
time_sync for any event (its TimeUpdate arm only logs); elapsed_nanoseconds
values reach time_sync only through the TimeService StreamTime client, which
forwards every received value. -/
theorem C2_time_sync_forwarding (s : ConnState) (e : Event) (n : Nat) :
    (handle_device_service_event s e).2.timeSyncSends = [] ∧
      run_time_service_forward n = [n] := by
  refine ⟨?_, rfl⟩
  cases e with
  | timeUpdate t => rfl
  | locationUpdate locs => rfl
  | pointUpdate user_id new_points =>
      simp only [handle_device_service_event]
      split
      · split
        · rfl
        · rfl
      · rfl
  | soundSettingUpdate os => cases os <;> rfl
  | moonlightUpdate ms =>
      simp only [handle_device_service_event]
      cases s.myAddress with
      | none => rfl
      | some device_id =>
          cases hm : ms.find? (fun m => (m.device == device_id) || (m.address == device_id)) with
          | none => simp [hm]
          | some m => simp [hm]

/-- C9: every emission of the scanner dedup step has its address in
SoundMap at emission time, and is either the first-ever emission for that
address, or at least 25 ms after the previous emission, or at least 1 dBm
away from the previously emitted RSSI. -/
theorem C9_scanner_emission (soundMapKeys : String → Bool)
    (cache : String → Option DeviceCacheEntry) (now : Nat) (address : String) (rssi : Int)
    (h : (on_event_receive soundMapKeys cache now address rssi).1 = true) :
    soundMapKeys address = true ∧
      (cache address = none ∨
        ∃ c, cache address = some c ∧
          (SCAN_DEDUP_INTERVAL_NS ≤ now - c.last_sent ∨ 1 ≤ (rssi - c.last_rssi).natAbs)) := by
  unfold on_event_receive at h
  by_cases hk : soundMapKeys address = false
  · rw [if_pos hk] at h
    exact absurd h (by simp)
  · refine ⟨by revert hk; cases soundMapKeys address <;> simp, ?_⟩
    rw [if_neg hk] at h
    cases hc : cache address with
    | none => exact Or.inl rfl
    | some c =>
        simp only [hc] at h
        by_cases hcond : SCAN_DEDUP_INTERVAL_NS ≤ now - c.last_sent ∨
            1 ≤ (rssi - c.last_rssi).natAbs
        · exact Or.inr ⟨c, rfl, hcond⟩
        · rw [if_neg hcond] at h
          exact absurd h (by simp)

/-- C9 witness: a first-ever observation of a mapped address is emitted and
satisfies the stated disjunction. -/
theorem C9_witness :
    ((fun a => a == "AA") "AA") = true ∧
      ((fun _ => (none : Option DeviceCacheEntry)) "AA" = none ∨
        ∃ c, (fun _ => (none : Option DeviceCacheEntry)) "AA" = some c ∧
          (SCAN_DEDUP_INTERVAL_NS ≤ 0 - c.last_sent ∨ 1 ≤ ((-50 : Int) - c.last_rssi).natAbs)) :=
  C9_scanner_emission (fun a => a == "AA") (fun _ => none) 0 "AA" (-50) (by decide)

/-- C10: with no prior sample for the address, the previous RSSI defaults to
i16::MIN, so the very first observation of an interactive-place address
above -45 dBm counts as a crossing and fires the mapped SE and the HTTP
increment request; no prior below-threshold sample is required. -/
theorem C10_first_observation_fires (lastRssiMap : String → Option Int)
    (locTypes : String → Option String) (lastInteraction : String → Option Nat)
    (user_id : String) (now : Nat) (address : String) (rssi : Int) (pt : String)
    (hfirst : lastRssiMap address = none)
    (hpt : locTypes address = some pt)
    (hinter : pt = "fire_rat_robe" ∨ pt = "buddhas_bowl")
    (hrssi : INTERACTION_RSSI_THRESHOLD < rssi)
    (hcool : lastInteraction pt = none) :
    (interactionStep lastRssiMap locTypes lastInteraction (some user_id) now address rssi).1.seSend
        = some (if pt = "fire_rat_robe" then "se-nezumi.mp3" else "se-hotoke.mp3") ∧
      (interactionStep lastRssiMap locTypes lastInteraction
          (some user_id) now address rssi).1.httpSend = some (user_id, pt) := by
  have h1 : (lastRssiMap address).getD I16_MIN ≤ INTERACTION_RSSI_THRESHOLD := by
    rw [hfirst]; decide
  have hint : is_interactive_place_type pt = true := by
    rcases hinter with h | h <;> rw [h] <;> rfl
  have hci : (can_interact lastInteraction now pt).1 = true := by
    unfold can_interact
    rw [hcool]
  have key : interaction_fire lastRssiMap locTypes lastInteraction (some user_id) now address rssi
      = ({ seSend := get_se_file_from_place_type pt
           httpSend := some (user_id, pt) },
         (can_interact lastInteraction now pt).2) := by
    unfold interaction_fire
    rw [if_pos ⟨h1, hrssi⟩]
    simp only [hpt]
    rw [if_pos hint, if_pos hci]
    simp [Option.map]
  have hse : get_se_file_from_place_type pt =
      some (if pt = "fire_rat_robe" then "se-nezumi.mp3" else "se-hotoke.mp3") := by
    rcases hinter with h | h <;> rw [h] <;> rfl
  constructor
  · show (interaction_fire lastRssiMap locTypes lastInteraction
        (some user_id) now address rssi).1.seSend = _
    rw [key]
    exact hse
  · show (interaction_fire lastRssiMap locTypes lastInteraction
        (some user_id) now address rssi).1.httpSend = _
    rw [key]

/-- C10 witness: a concrete first observation of a fire_rat_robe address at
-40 dBm fires se-nezumi.mp3 and the increment request for this user. -/
theorem C10_witness :
    (interactionStep (fun _ => none)
        (fun a => if a = "BB" then some "fire_rat_robe" else none)
        (fun _ => none) (some "ME") 0 "BB" (-40)).1.seSend
      = some (if "fire_rat_robe" = "fire_rat_robe" then "se-nezumi.mp3" else "se-hotoke.mp3") ∧
    (interactionStep (fun _ => none)
        (fun a => if a = "BB" then some "fire_rat_robe" else none)
        (fun _ => none) (some "ME") 0 "BB" (-40)).1.httpSend
      = some ("ME", "fire_rat_robe") :=
  C10_first_observation_fires (fun _ => none)
    (fun a => if a = "BB" then some "fire_rat_robe" else none)
    (fun _ => none) "ME" 0 "BB" (-40) "fire_rat_robe"
    rfl (by decide) (Or.inl rfl) (by decide) rfl

/-- C1 counterexample: the top candidate B at -49 dBm does not exceed the
currently-playing address A's observed -50 dBm plus the 3 dBm margin
(-49 is not above -47), yet the engine still initiates the switch away from
A's track: no hysteresis comparison exists in the selection or the switch
trigger. -/
theorem C1_counterexample :
    best_device [⟨"B", -49, 0⟩, ⟨"A", -50, 0⟩]
        (fun a => if a = "A" then some "tsukimi-hotoke_1.mp3"
          else if a = "B" then some "tsukimi-eda_1.mp3" else none) none 0
      = some ⟨"B", -49, 0⟩
    ∧ switch_initiated
        (desired_sound [⟨"B", -49, 0⟩, ⟨"A", -50, 0⟩]
          (fun a => if a = "A" then some "tsukimi-hotoke_1.mp3"
            else if a = "B" then some "tsukimi-eda_1.mp3" else none) none 0
          "tsukimi-hotoke_1.mp3" "tsukimi-main_1.mp3")
        "tsukimi-hotoke_1.mp3" false = true
    ∧ ¬ ((-50 : Int) + 3 < -49) := by
  refine ⟨by decide, by decide, by decide⟩

/-- C1 (amended): whenever the top-ranked candidate resolves through
SoundMap to a track different from current_sound and no switch is in
progress, the engine initiates the switch - unconditionally, with no RSSI
hysteresis margin; current_sound is kept only when the resolved track is
equal to it. -/
theorem C1_switch_no_hysteresis (devices : List DeviceInfo) (soundMap : String → Option String)
    (my_addr : Option String) (points : Int) (current_sound default_sound : String)
    (d : DeviceInfo) (snd : String)
    (hbest : best_device devices soundMap my_addr points = some d)
    (hmap : soundMap d.address = some snd)
    (hne : snd ≠ current_sound) :
    switch_initiated (desired_sound devices soundMap my_addr points current_sound default_sound)
      current_sound false = true := by
  unfold desired_sound
  rw [hbest]
  show (((soundMap d.address).getD current_sound != current_sound) && !false) = true
  rw [hmap]
  simp [hne]

/-- C1 witness: a single candidate mapped to another track triggers the
switch. -/
theorem C1_witness :
    switch_initiated
      (desired_sound [⟨"B", -40, 0⟩]
        (fun a => if a = "B" then some "tsukimi-eda_1.mp3" else none)
        none 0 "tsukimi-main_1.mp3" "tsukimi-main_1.mp3")
      "tsukimi-main_1.mp3" false = true :=
  C1_switch_no_hysteresis [⟨"B", -40, 0⟩]
    (fun a => if a = "B" then some "tsukimi-eda_1.mp3" else none)
    none 0 "tsukimi-main_1.mp3" "tsukimi-main_1.mp3" ⟨"B", -40, 0⟩ "tsukimi-eda_1.mp3"
    (by decide) (by decide) (by decide)

/-- C4: evaluation of the switch error paths. When building the standby
pipeline fails, the worker returns without delivering, the active keeps
playing, but the switching flag is never cleared (contradicting the claim
that a later switch attempt stays possible). When the Paused transition
times out, the worker ignores the result and still seeks, starts and
delivers the standby instead of abandoning it. -/
theorem C4_switch_error_paths :
    switching_after_attempt false true false 0 = true
    ∧ (switch_worker false true false 0).contains WorkerAction.sendToMain = false
    ∧ (switch_worker true false false 0).contains WorkerAction.sendToMain = true
    ∧ switching_after_attempt true false false 0 = false := by
  refine ⟨by decide, by decide, by decide, by decide⟩

/-- C5 counterexample: on a successful build the worker itself sets the
standby pipeline to Playing before delivering it, and the main loop does not
promote the received pipeline (it is already playing) - contradicting the
claim that only the main loop promotes the standby. -/
theorem C5_counterexample :
    (switch_worker true true false 0).contains WorkerAction.setStatePlaying = true
    ∧ main_on_switch_received.standbyPromotedToPlayingByMain = false := by
  refine ⟨by decide, by decide⟩

/-- C5 (amended): on a successful build with no bus error, the worker sets
volume and tempo, transitions to Paused, seek-aligns, sets the standby to
Playing itself, and only then delivers the handle through the single-slot
channel; the main loop, on receiving it, destroys the old active pipeline,
adopts the already-playing standby without issuing a state change, resets
the sync anchor and clears switching. -/
theorem C5_switch_protocol (pauseReached : Bool) (pos : Nat) :
    switch_worker true pauseReached false pos =
      [WorkerAction.setVolume 1, WorkerAction.setTempo 1, WorkerAction.setStatePaused,
        WorkerAction.waitPaused pauseReached, WorkerAction.seekFlushAccurate pos,
        WorkerAction.setStatePlaying, WorkerAction.sendToMain]
    ∧ main_on_switch_received.oldActiveSetNull = true
    ∧ main_on_switch_received.standbyPromotedToPlayingByMain = false
    ∧ main_on_switch_received.switchingCleared = true
    ∧ main_on_switch_received.anchorReset = true := by
  refine ⟨rfl, rfl, rfl, rfl, rfl⟩

theorem wrapSub64_eq_of_le (a b : Nat) (ha : a < 2 ^ 64) (hb : b ≤ a) :
    wrapSub64 a b = a - b := by
  unfold wrapSub64
  omega

theorem wrapSub64_eq_of_lt (a b : Nat) (hab : a < b) (hb : b < 2 ^ 64) :
    wrapSub64 a b = 2 ^ 64 - (b - a) := by
  unfold wrapSub64
  omega

theorem asI64_of_lt (x : Nat) (h : x < 2 ^ 63) : asI64 x = (x : Int) := by
  unfold asI64
  have h64 : x < 2 ^ 64 := by omega
  rw [Nat.mod_eq_of_lt h64, if_pos h]

theorem asI64_of_ge (x : Nat) (h1 : 2 ^ 63 ≤ x) (h2 : x < 2 ^ 64) :
    asI64 x = (x : Int) - 2 ^ 64 := by
  unfold asI64
  rw [Nat.mod_eq_of_lt h2, if_neg (by omega)]

theorem wrapI64_eq (x : Int) (h1 : -(2 ^ 63) ≤ x) (h2 : x < 2 ^ 63) : wrapI64 x = x := by
  unfold wrapI64
  rw [Int.emod_eq_of_lt (by omega) (by omega)]
  omega

/-- C3 counterexample: with the anchor server time equal to 0 (as after the
no-sync fallback start), a time_sync sample 10 s ahead produces no seek, no
rate write and no anchor reset, although the claim calls for a seek. -/
theorem C3_counterexample :
    driftStep false false 0 10000000000 0 none = {} ∧
      3000000000 < ((10000000000 : Int) - 0 - 0).natAbs := by
  refine ⟨by decide, by decide⟩

/-- C3 (amended): in the Playing state, outside the switch guard and
provided the sync anchor's server time is nonzero, the drift pass computes
drift = (server_time - initial_server_time) - client_elapsed exactly (the
wrapping u64/i64 arithmetic agrees with ideal integers in the stated
ranges) and then: a flush+accurate seek to server_time modulo the pipeline
duration with rate 1.0 when |drift| exceeds 3 s, otherwise rate
clamp(1 + drift_s / 2, 0.9, 1.1); the sync anchor is reset in both
branches. -/
theorem C3_drift_correction (initS servT clientNs : Nat) (cachedDur : Option Nat)
    (h0 : initS ≠ 0) (hserv : servT < 2 ^ 64) (hle : initS ≤ servT)
    (hgap : servT - initS < 2 ^ 63) (hclient : clientNs < 2 ^ 63) :
    driftStep false false initS servT clientNs cachedDur =
      driftCorrect (((servT : Int) - (initS : Int)) - (clientNs : Int)) servT cachedDur
    ∧ ∀ dur : Nat, 0 < dur → seek_to_server_time_target dur servT = some (servT % dur) := by
  constructor
  · unfold driftStep
    rw [if_pos ⟨h0, rfl⟩]
    have h1 : wrapSub64 servT initS = servT - initS := wrapSub64_eq_of_le servT initS hserv hle
    have h2 : asI64 (servT - initS) = ((servT : Int) - (initS : Int)) := by
      rw [asI64_of_lt (servT - initS) hgap]
      omega
    have h3 : asI64 clientNs = (clientNs : Int) := asI64_of_lt clientNs hclient
    rw [h1, h2, h3]
    congr 1
    apply wrapI64_eq
    · omega
    · omega
  · intro dur hdur
    unfold seek_to_server_time_target
    rw [if_pos hdur]

/-- C3 witness: a 0.5 s positive drift at concrete values takes the
rate-adjust branch, and the seek target of a 4 s track is the server time
modulo the duration. -/
theorem C3_witness :
    driftStep false false 1000000000 12000000000 10500000000 none =
      driftCorrect (((12000000000 : Int) - (1000000000 : Int)) - (10500000000 : Int))
        12000000000 none
    ∧ seek_to_server_time_target 4000000000 12000000000 = some (12000000000 % 4000000000) := by
  have h := C3_drift_correction 1000000000 12000000000 10500000000 none (by decide) (by decide)
    (by decide) (by decide) (by decide)
  exact ⟨h.1, h.2 4000000000 (by decide)⟩

/-- C6 counterexample: an out-of-order sample (100 s while the anchor holds
200 s) is not discarded: the engine issues a seek, writes rate 1.0 and
resets the anchor - contradicting the no-seek / no-rate-change claim. -/
theorem C6_counterexample :
    (100000000000 : Nat) < 200000000000
    ∧ (driftStep false false 200000000000 100000000000 0 none).seekServerTime
        = some 100000000000
    ∧ (driftStep false false 200000000000 100000000000 0 none).newRate = some 1
    ∧ (driftStep false false 200000000000 100000000000 0 none).anchorReset = true := by
  refine ⟨by decide, by decide, by decide, by decide⟩

/-- C6 (amended): an out-of-order time_sync sample is processed, not
discarded: under release-mode wrapping semantics the u64 subtraction wraps
modulo 2^64 and the i64 reinterpretation recovers the exact negative drift
(server_time - initial) - client_elapsed whenever the backward gap plus the
client elapsed stays below 2^63; the engine then applies the ordinary drift
correction to that negative drift (a seek when its magnitude exceeds 3 s,
otherwise a slowed rate clamped at 0.9) and resets the anchor. -/
theorem C6_out_of_order (initS servT clientNs : Nat) (cachedDur : Option Nat)
    (hlt : servT < initS) (hinit : initS < 2 ^ 64)
    (hsum : initS - servT + clientNs < 2 ^ 63) :
    driftStep false false initS servT clientNs cachedDur =
      driftCorrect (((servT : Int) - (initS : Int)) - (clientNs : Int)) servT cachedDur
    ∧ ((servT : Int) - (initS : Int)) - (clientNs : Int) < 0 := by
  have h0 : initS ≠ 0 := by omega
  have hclient : clientNs < 2 ^ 63 := by omega
  constructor
  · unfold driftStep
    rw [if_pos ⟨h0, rfl⟩]
    have h1 : wrapSub64 servT initS = 2 ^ 64 - (initS - servT) :=
      wrapSub64_eq_of_lt servT initS hlt hinit
    have h2 : asI64 (2 ^ 64 - (initS - servT)) = ((servT : Int) - (initS : Int)) := by
      rw [asI64_of_ge _ (by omega) (by omega)]
      omega
    have h3 : asI64 clientNs = (clientNs : Int) := asI64_of_lt clientNs hclient
    rw [h1, h2, h3]
    congr 1
    apply wrapI64_eq
    · omega
    · omega
  · omega

/-- C6 witness: a 1 s backwards sample takes the rate branch with a negative
drift. -/
theorem C6_witness :
    driftStep false false 5000000000 4000000000 0 none =
      driftCorrect (((4000000000 : Int) - (5000000000 : Int)) - (0 : Int)) 4000000000 none
    ∧ ((4000000000 : Int) - (5000000000 : Int)) - (0 : Int) < 0 :=
  C6_out_of_order 5000000000 4000000000 0 none (by decide) (by decide) (by decide)

end Tsukimi
